import Mathlib

/-!
Verification of the fdv synchronization-primitives layer (fdvsync.h):
Mutex / MutexLock, SafeValue, ResourceCounter, SoftTimeOut and Queue,
shallowly embedded as pure Lean definitions.  The 32-bit unsigned
counters of the source are represented as Nat with explicit reduction
modulo 2^32 = 4294967296 at every operation that the C code performs
on a uint32_t.
-/

/-- Modelled from the spec: the Mutex implementation (fdvsync.cpp) is not in
the sources; per the spec a Lock wraps one scheduler binary semaphore and has
the abstract state locked/unlocked. -/
structure Mutex where
  locked : Bool
deriving DecidableEq, Repr

/-- Modelled from the spec: a Lock is created unlocked-available. -/
def Mutex.init : Mutex :=
  { locked := false }

/-- Modelled from the spec: lock(msTimeOut) acquires the semaphore when it is
available and returns whether it was acquired.  In the sequential embedding a
lock attempt on an already-held Mutex times out (no other task can free it
during the atomic step), whatever the timeout was. -/
def Mutex.lockAttempt (m : Mutex) : Mutex × Bool :=
  if m.locked then (m, false) else ({ locked := true }, true)

/-- Modelled from the spec: unlock releases the semaphore. -/
def Mutex.unlock (_ : Mutex) : Mutex :=
  { locked := false }

/-- Guard object of class MutexLock: the stored outcome of the acquisition
attempt made by its constructor. -/
structure MutexLock where
  m_acquired : Bool
deriving DecidableEq, Repr

/-- Modelled from the spec: the MutexLock constructor attempts lock(msTimeOut)
on the referenced Mutex at once and stores the boolean result. -/
def MutexLock.create (m : Mutex) : Mutex × MutexLock :=
  let r := m.lockAttempt
  (r.1, { m_acquired := r.2 })

/-- Modelled from the spec: the MutexLock destructor calls unlock() on the
referenced Mutex only if the construction-time attempt succeeded. -/
def MutexLock.destroy (m : Mutex) (l : MutexLock) : Mutex :=
  if l.m_acquired then m.unlock else m

/-- State of a ResourceCounter (fdvsync.h lines 152-181): the two binary
Mutexes and the uint32_t resource count. -/
structure ResourceCounter where
  m_mutex : Mutex
  m_gate : Mutex
  m_resources : Nat
deriving DecidableEq, Repr

/-- Constructor ResourceCounter(resourcesCount): only initialises m_resources;
both member Mutexes are default-constructed (hence unlocked-available).  The
uint32_t parameter is reduced modulo 2^32. -/
def ResourceCounter.init (resourcesCount : Nat) : ResourceCounter :=
  { m_mutex := Mutex.init, m_gate := Mutex.init,
    m_resources := resourcesCount % 4294967296 }

/-- Body of ResourceCounter::get.  The caller-side fact whether m_gate.lock
(msTimeOut) succeeded is the argument gateAcquired; on success the gate is
held by this call, m_mutex is locked, m_resources is decremented (uint32
wrap), the gate is unlocked again exactly when the decremented count is
positive, and m_mutex is unlocked; the call returns true.  On gate timeout
nothing happens and the call returns false. -/
def ResourceCounter.get (s : ResourceCounter) (gateAcquired : Bool) :
    ResourceCounter × Bool :=
  if gateAcquired then
    let gateHeld : Mutex := { locked := true }
    let mutexHeld : Mutex := (Mutex.lockAttempt s.m_mutex).1
    let r : Nat := (s.m_resources + 4294967295) % 4294967296
    let gateAfter : Mutex := if 0 < r then Mutex.unlock gateHeld else gateHeld
    ({ m_mutex := Mutex.unlock mutexHeld, m_gate := gateAfter,
       m_resources := r }, true)
  else
    (s, false)

/-- Body of ResourceCounter::release: lock m_mutex, increment m_resources
(uint32 wrap), unlock the gate exactly when the incremented count is 1,
unlock m_mutex. -/
def ResourceCounter.release (s : ResourceCounter) : ResourceCounter :=
  let mutexHeld : Mutex := (Mutex.lockAttempt s.m_mutex).1
  let r : Nat := (s.m_resources + 1) % 4294967296
  let gateAfter : Mutex := if r = 1 then Mutex.unlock s.m_gate else s.m_gate
  { m_mutex := Mutex.unlock mutexHeld, m_gate := gateAfter, m_resources := r }

/-- One observable operation on a ResourceCounter: a get() whose gate
acquisition succeeded, a get() that timed out on the gate, or a release(). -/
inductive RCEvent where
  | getSuccess
  | getTimeout
  | release
deriving DecidableEq, Repr

/-- Interleaved atomic semantics: a get() can acquire the gate only when the
gate is unlocked at that step (a blocked get() that is woken later is the
release step followed by a getSuccess step). -/
def rcStep (s : ResourceCounter) : RCEvent → Option ResourceCounter
  | RCEvent.getSuccess =>
    if s.m_gate.locked then none else some (s.get true).1
  | RCEvent.getTimeout => some (s.get false).1
  | RCEvent.release => some s.release

/-- Run a sequence of operations; the states between steps are the
observation points outside the critical windows of get()/release(). -/
def rcRun (s : ResourceCounter) : List RCEvent → Option ResourceCounter
  | [] => some s
  | e :: t =>
    match rcStep s e with
    | none => none
    | some s1 => rcRun s1 t

/-- Usage protocol of a counting semaphore: with credit outstanding
acquisitions already available, every release() in the sequence is preceded
by a matching successful get(). -/
def balancedFrom (credit : Nat) : List RCEvent → Bool
  | [] => true
  | RCEvent.getSuccess :: t => balancedFrom (credit + 1) t
  | RCEvent.getTimeout :: t => balancedFrom credit t
  | RCEvent.release :: t => decide (0 < credit) && balancedFrom (credit - 1) t

/-- A SafeValue (fdvsync.h lines 106-142): the protected value and the
private Mutex serialising every access. -/
structure SafeValue (T : Type) where
  m_value : T
  m_mutex : Mutex
deriving DecidableEq, Repr

/-- Pre-increment of SafeValue: MutexLock guard on m_mutex, then
return ++m_value (the new value is stored and returned). -/
def SafeValue.preInc {T : Type} [Add T] [One T] (s : SafeValue T) :
    SafeValue T × T :=
  let g := MutexLock.create s.m_mutex
  let v := s.m_value + 1
  ({ m_value := v, m_mutex := MutexLock.destroy g.1 g.2 }, v)

/-- Post-increment of SafeValue: MutexLock guard on m_mutex, then
return m_value++ (the new value is stored, the old one returned). -/
def SafeValue.postInc {T : Type} [Add T] [One T] (s : SafeValue T) :
    SafeValue T × T :=
  let g := MutexLock.create s.m_mutex
  ({ m_value := s.m_value + 1, m_mutex := MutexLock.destroy g.1 g.2 },
   s.m_value)

/-- Pre-decrement of SafeValue: MutexLock guard on m_mutex, then
return --m_value (the new value is stored and returned). -/
def SafeValue.preDec {T : Type} [Sub T] [One T] (s : SafeValue T) :
    SafeValue T × T :=
  let g := MutexLock.create s.m_mutex
  let v := s.m_value - 1
  ({ m_value := v, m_mutex := MutexLock.destroy g.1 g.2 }, v)

/-- Post-decrement of SafeValue: MutexLock guard on m_mutex, then
return m_value-- (the new value is stored, the old one returned). -/
def SafeValue.postDec {T : Type} [Sub T] [One T] (s : SafeValue T) :
    SafeValue T × T :=
  let g := MutexLock.create s.m_mutex
  ({ m_value := s.m_value - 1, m_mutex := MutexLock.destroy g.1 g.2 },
   s.m_value)

/-- Modelled from the spec: millisDiff (declared in fdvsync.h line 37 and
implemented in the missing fdvsync.cpp) is the wraparound-safe forward
difference time2 - time1 in uint32 arithmetic. -/
def millisDiff (time1 time2 : Nat) : Nat :=
  (time2 % 4294967296 + (4294967296 - time1 % 4294967296)) % 4294967296

/-- State of a SoftTimeOut (fdvsync.h lines 194-203): the duration and the
recorded start time, both uint32 milliseconds. -/
structure SoftTimeOut where
  m_timeOut : Nat
  m_startTime : Nat
deriving DecidableEq, Repr

/-- Modelled from the spec: SoftTimeOut::reset (and the constructor) records
the current time millis() - passed here as the argument now - and stores the
duration. -/
def SoftTimeOut.reset (time now : Nat) : SoftTimeOut :=
  { m_timeOut := time, m_startTime := now % 4294967296 }

/-- Modelled from the spec: SoftTimeOut::operator bool evaluates
millisDiff(m_startTime, millis()) >= m_timeOut, with the current millis()
passed here as the argument now. -/
def SoftTimeOut.hasElapsed (s : SoftTimeOut) (now : Nat) : Bool :=
  decide (s.m_timeOut ≤ millisDiff s.m_startTime now)

/-- FreeRTOS portMAX_DELAY, the default msTimeOut of the Queue operations:
the all-ones 32-bit value, which xQueueSend and friends treat as the
indefinite-wait sentinel when received unchanged as a tick count. -/
def portMAX_DELAY : Nat := 4294967295

/-- Millisecond-to-tick conversion applied by Queue::send, Queue::receive and
Queue::peek: truncating division msTimeOut / portTICK_RATE_MS (the tick rate
is a platform constant, kept here as the parameter tickRateMs). -/
def msToTicks (msTimeOut tickRateMs : Nat) : Nat :=
  msTimeOut / tickRateMs

/-- Model of a FreeRTOS queue handle: the buffered items in FIFO order and
the capacity fixed at creation. -/
structure Queue (T : Type) where
  items : List T
  queueLength : Nat
deriving DecidableEq, Repr

/-- Modelled from the spec: the scheduler bounded-queue primitive
xQueueCreate(queueLength, itemSize) creates an empty queue of the given
capacity. -/
def xQueueCreate (T : Type) (queueLength : Nat) : Queue T :=
  { items := [], queueLength := queueLength }

/-- Modelled from the spec: xQueueSend appends the item when the queue has
room and returns success; on a full queue (and no consumer running during
the sequential step, whatever the tick timeout) it returns failure without
enqueueing. -/
def xQueueSend {T : Type} (q : Queue T) (item : T) (_ticks : Nat) :
    Queue T × Bool :=
  if q.items.length < q.queueLength then
    ({ items := q.items ++ [item], queueLength := q.queueLength }, true)
  else
    (q, false)

/-- Modelled from the spec: xQueueReceive removes and yields the front item
when one is buffered; on an empty queue (and no producer running during the
sequential step, whatever the tick timeout) it fails without producing a
value. -/
def xQueueReceive {T : Type} (q : Queue T) (_ticks : Nat) :
    Queue T × Option T :=
  match q.items with
  | [] => (q, none)
  | x :: rest => ({ items := rest, queueLength := q.queueLength }, some x)

/-- Modelled from the spec: xQueuePeek yields the front item without
removing it, failing on an empty queue. -/
def xQueuePeek {T : Type} (q : Queue T) (_ticks : Nat) :
    Queue T × Option T :=
  match q.items with
  | [] => (q, none)
  | x :: _ => (q, some x)

/-- Constructor Queue(queueLength): m_handle = xQueueCreate(queueLength,
sizeof(T)). -/
def Queue.create (T : Type) (queueLength : Nat) : Queue T :=
  xQueueCreate T queueLength

/-- Queue::send(item, msTimeOut): xQueueSend(m_handle, &item,
msTimeOut / portTICK_RATE_MS). -/
def Queue.send {T : Type} (q : Queue T) (item : T)
    (msTimeOut tickRateMs : Nat) : Queue T × Bool :=
  xQueueSend q item (msToTicks msTimeOut tickRateMs)

/-- Queue::signal(msTimeOut): send(dummyItem, msTimeOut) with a
default-constructed item. -/
def Queue.signal {T : Type} [Inhabited T] (q : Queue T)
    (msTimeOut tickRateMs : Nat) : Queue T × Bool :=
  Queue.send q default msTimeOut tickRateMs

/-- Queue::receive(item, msTimeOut): xQueueReceive(m_handle, item,
msTimeOut / portTICK_RATE_MS); the received item is returned instead of
written through a pointer. -/
def Queue.receive {T : Type} (q : Queue T) (msTimeOut tickRateMs : Nat) :
    Queue T × Option T :=
  xQueueReceive q (msToTicks msTimeOut tickRateMs)

/-- Queue::peek(item, msTimeOut): xQueuePeek(m_handle, item,
msTimeOut / portTICK_RATE_MS). -/
def Queue.peek {T : Type} (q : Queue T) (msTimeOut tickRateMs : Nat) :
    Queue T × Option T :=
  xQueuePeek q (msToTicks msTimeOut tickRateMs)

/-- Concrete final state reached in the C1 witness run. -/
def rcW : ResourceCounter :=
  { m_mutex := { locked := false }, m_gate := { locked := false },
    m_resources := 1 }

/-- Channel of capacity 3 used in the C8 scenario. -/
def chanW0 : Queue Int := Queue.create Int 3

/-- C8 scenario after sending 1. -/
def chanW1 : Queue Int := (Queue.send chanW0 1 portMAX_DELAY 10).1

/-- C8 scenario after sending 1, 2. -/
def chanW2 : Queue Int := (Queue.send chanW1 2 portMAX_DELAY 10).1

/-- C8 scenario after sending 1, 2, 3: the channel is full. -/
def chanW3 : Queue Int := (Queue.send chanW2 3 portMAX_DELAY 10).1

/-- uint32 decrement of a nonzero in-range value is ordinary subtraction. -/
theorem u32_dec_eq (r : Nat) (h1 : r ≠ 0) (h2 : r < 4294967296) :
    (r + 4294967295) % 4294967296 = r - 1 := by
  have h3 : r + 4294967295 = (r - 1) + 4294967296 := by omega
  rw [h3, Nat.add_mod_right, Nat.mod_eq_of_lt (by omega)]

/-- Resulting state of the successful branch of get(), in closed form. -/
theorem get_true_eq (s : ResourceCounter) :
    (s.get true).1 =
      { m_mutex := { locked := false },
        m_gate :=
          { locked :=
              decide ((s.m_resources + 4294967295) % 4294967296 = 0) },
        m_resources := (s.m_resources + 4294967295) % 4294967296 } := by
  by_cases h : 0 < (s.m_resources + 4294967295) % 4294967296
  · simp [ResourceCounter.get, Mutex.unlock, h, Nat.pos_iff_ne_zero.mp h]
  · have h0 : (s.m_resources + 4294967295) % 4294967296 = 0 := by omega
    simp [ResourceCounter.get, Mutex.unlock, h, h0]

/-- Resulting state of release(), in closed form. -/
theorem release_eq (s : ResourceCounter) :
    s.release =
      { m_mutex := { locked := false },
        m_gate :=
          if (s.m_resources + 1) % 4294967296 = 1
          then Mutex.unlock s.m_gate else s.m_gate,
        m_resources := (s.m_resources + 1) % 4294967296 } := rfl

/-- Inductive preservation of the ResourceCounter invariant along any
balanced operation sequence. -/
theorem rcRun_inv (N : Nat) (hM : N < 4294967296) (t : List RCEvent) :
    ∀ (s s' : ResourceCounter),
      s.m_resources ≤ N →
      (s.m_gate.locked = true ↔ s.m_resources = 0) →
      balancedFrom (N - s.m_resources) t = true →
      rcRun s t = some s' →
      s'.m_resources ≤ N ∧ (s'.m_gate.locked = true ↔ s'.m_resources = 0) := by
  induction t with
  | nil =>
    intro s s' hle hg _ hrun
    simp [rcRun] at hrun
    subst hrun
    exact ⟨hle, hg⟩
  | cons e t ih =>
    intro s s' hle hg hbal hrun
    cases e with
    | getSuccess =>
      cases hgl : s.m_gate.locked with
      | true => simp [rcRun, rcStep, hgl] at hrun
      | false =>
        have hr0 : s.m_resources ≠ 0 := by
          intro h0
          rw [hg.mpr h0] at hgl
          cases hgl
        have hlt : s.m_resources < 4294967296 := lt_of_le_of_lt hle hM
        have hdec : (s.m_resources + 4294967295) % 4294967296 =
            s.m_resources - 1 := u32_dec_eq _ hr0 hlt
        have hrun2 : rcRun (s.get true).1 t = some s' := by
          simpa [rcRun, rcStep, hgl] using hrun
        rw [get_true_eq] at hrun2
        apply ih _ s' _ _ _ hrun2
        · simp only [hdec]
          omega
        · simp only [hdec, decide_eq_true_eq]
        · simp only [hdec]
          have hc : N - (s.m_resources - 1) = (N - s.m_resources) + 1 := by
            omega
          rw [hc]
          simpa [balancedFrom] using hbal
    | getTimeout =>
      have hrun2 : rcRun s t = some s' := by
        simpa [rcRun, rcStep, ResourceCounter.get] using hrun
      have hbal2 : balancedFrom (N - s.m_resources) t = true := by
        simpa [balancedFrom] using hbal
      exact ih s s' hle hg hbal2 hrun2
    | release =>
      have hrun2 : rcRun s.release t = some s' := by
        simpa [rcRun, rcStep] using hrun
      have hbal' : 0 < N - s.m_resources ∧
          balancedFrom (N - s.m_resources - 1) t = true := by
        simpa [balancedFrom] using hbal
      obtain ⟨hcred, hbal2⟩ := hbal'
      have hrN : s.m_resources < N := by omega
      have hinc : (s.m_resources + 1) % 4294967296 = s.m_resources + 1 :=
        Nat.mod_eq_of_lt (by omega)
      rw [release_eq] at hrun2
      apply ih _ s' _ _ _ hrun2
      · simp only [hinc]
        omega
      · simp only [hinc]
        by_cases h1 : s.m_resources + 1 = 1
        · simp [h1, Mutex.unlock]
        · have hne : s.m_resources ≠ 0 := by omega
          have hgf : s.m_gate.locked = false := by
            cases hb : s.m_gate.locked with
            | true => exact absurd (hg.mp hb) hne
            | false => rfl
          simp [h1, hgf]
      · have hc : N - (s.m_resources + 1) = N - s.m_resources - 1 := by
          omega
        simpa [hinc, hc] using hbal2

/-- C2: the claim says the gate starts locked iff resourcesCount == 0, but
the constructor only initialises m_resources and both member Mutexes start
unlocked-available, so ResourceCounter(0) starts with the gate unlocked; a
first get() then succeeds immediately and underflows the counter to
4294967295. -/
theorem resourceCounter_init_zero_gate_unlocked :
    (ResourceCounter.init 0).m_gate.locked = false ∧
    rcStep (ResourceCounter.init 0) RCEvent.getSuccess =
      some { m_mutex := { locked := false }, m_gate := { locked := false },
             m_resources := 4294967295 } := by decide

/-- C3: whenever get() acquires the gate, it decrements m_resources in
uint32 arithmetic, leaves the gate unlocked exactly when the decremented
count is positive (held otherwise), ends with the count mutex released, and
returns true. -/
theorem resourceCounter_get_success (s : ResourceCounter) :
    (s.get true).2 = true ∧
    (s.get true).1.m_resources =
      (s.m_resources + 4294967295) % 4294967296 ∧
    ((s.get true).1.m_gate.locked = false ↔
      0 < (s.get true).1.m_resources) ∧
    (s.get true).1.m_mutex.locked = false := by
  refine ⟨rfl, ?_, ?_, ?_⟩
  · rw [get_true_eq]
  · rw [get_true_eq]
    simp [Nat.pos_iff_ne_zero]
  · rw [get_true_eq]

/-- C4: when the gate acquisition times out, get() returns false and the
whole ResourceCounter state (count, gate, count mutex) is untouched. -/
theorem resourceCounter_get_timeout (s : ResourceCounter) :
    s.get false = (s, false) := rfl

/-- C5: release() increments m_resources in uint32 arithmetic, unlocks the
gate exactly when the incremented count is 1 (leaving it untouched - in
particular never blocking on it - otherwise), and ends with the count mutex
released. -/
theorem resourceCounter_release_spec (s : ResourceCounter) :
    s.release.m_resources = (s.m_resources + 1) % 4294967296 ∧
    s.release.m_gate = (if (s.m_resources + 1) % 4294967296 = 1
                        then Mutex.unlock s.m_gate else s.m_gate) ∧
    s.release.m_mutex.locked = false :=
  ⟨rfl, rfl, rfl⟩

/-- C6: on a SafeValue whose private lock is free, pre-increment stores and
returns v+1, post-increment stores v+1 and returns v, pre-decrement stores
and returns v-1, post-decrement stores v-1 and returns v, and each operation
ends with the private lock released again (it was taken by the MutexLock
guard for the duration of the access). -/
theorem safeValue_incDec {T : Type} [Add T] [Sub T] [One T]
    (s : SafeValue T) (h : s.m_mutex.locked = false) :
    s.preInc = ({ m_value := s.m_value + 1, m_mutex := { locked := false } },
                s.m_value + 1) ∧
    s.postInc = ({ m_value := s.m_value + 1, m_mutex := { locked := false } },
                 s.m_value) ∧
    s.preDec = ({ m_value := s.m_value - 1, m_mutex := { locked := false } },
                s.m_value - 1) ∧
    s.postDec = ({ m_value := s.m_value - 1, m_mutex := { locked := false } },
                 s.m_value) := by
  obtain ⟨v, ⟨b⟩⟩ := s
  cases b with
  | false =>
    simp [SafeValue.preInc, SafeValue.postInc, SafeValue.preDec,
          SafeValue.postDec, MutexLock.create, MutexLock.destroy,
          Mutex.lockAttempt, Mutex.unlock]
  | true => simp at h

/-- C6 witness: the four operations evaluated on a concrete SafeValue. -/
theorem safeValue_incDec_witness :
    (({ m_value := 5, m_mutex := { locked := false } } : SafeValue Int).preInc
      = ({ m_value := (5 : Int) + 1, m_mutex := { locked := false } },
         (5 : Int) + 1)) ∧
    (({ m_value := 5, m_mutex := { locked := false } } : SafeValue Int).postInc
      = ({ m_value := (5 : Int) + 1, m_mutex := { locked := false } },
         (5 : Int))) ∧
    (({ m_value := 5, m_mutex := { locked := false } } : SafeValue Int).preDec
      = ({ m_value := (5 : Int) - 1, m_mutex := { locked := false } },
         (5 : Int) - 1)) ∧
    (({ m_value := 5, m_mutex := { locked := false } } : SafeValue Int).postDec
      = ({ m_value := (5 : Int) - 1, m_mutex := { locked := false } },
         (5 : Int))) :=
  safeValue_incDec
    ({ m_value := 5, m_mutex := { locked := false } } : SafeValue Int) rfl

/-- C7: the MutexLock guard records whether its construction-time lock
attempt succeeded, its destructor unlocks the referenced Mutex exactly when
that attempt succeeded and leaves it untouched otherwise, and the
create/destroy round trip restores the external lock state (a lock that the
guard acquired is unlocked exactly once, one it never acquired stays
locked). -/
theorem mutexLock_unlock_iff_acquired (m m2 : Mutex) :
    (MutexLock.create m).2.m_acquired = !m.locked ∧
    MutexLock.destroy m2 { m_acquired := false } = m2 ∧
    MutexLock.destroy m2 { m_acquired := true } = Mutex.unlock m2 ∧
    (MutexLock.destroy (MutexLock.create m).1 (MutexLock.create m).2).locked
      = m.locked := by
  obtain ⟨b⟩ := m
  cases b <;>
    simp [MutexLock.create, MutexLock.destroy, Mutex.lockAttempt,
          Mutex.unlock]

/-- C1 counterexample: the claimed invariant already fails at the initial
observation point of ResourceCounter(0): the counter is 0 but the gate is
unlocked. -/
theorem resourceCounter_invariant_cex :
    rcRun (ResourceCounter.init 0) [] = some (ResourceCounter.init 0) ∧
    ¬ ((ResourceCounter.init 0).m_gate.locked = true ↔
       (ResourceCounter.init 0).m_resources = 0) := by decide

/-- C1 (amended): for an initial count between 1 and 2^32 - 1, along every
operation sequence in which each release() is preceded by a matching
successful get(), every observation point outside the critical windows of
get()/release() satisfies 0 <= resources <= initialResourcesCount, and the
gate is locked exactly when resources == 0. -/
theorem resourceCounter_invariant (N : Nat) (t : List RCEvent)
    (s' : ResourceCounter) (hN : 1 ≤ N) (hM : N < 4294967296)
    (hbal : balancedFrom 0 t = true)
    (hrun : rcRun (ResourceCounter.init N) t = some s') :
    (0 ≤ s'.m_resources ∧ s'.m_resources ≤ N) ∧
    (s'.m_gate.locked = true ↔ s'.m_resources = 0) := by
  have hinit : (ResourceCounter.init N).m_resources = N := by
    simp [ResourceCounter.init, Nat.mod_eq_of_lt hM]
  have h := rcRun_inv N hM t (ResourceCounter.init N) s'
    (by rw [hinit])
    (by
      rw [show (ResourceCounter.init N).m_gate.locked = false from rfl, hinit]
      constructor
      · intro hx
        simp at hx
      · intro hx
        exact absurd hx (by omega))
    (by rw [hinit, Nat.sub_self]; exact hbal) hrun
  exact ⟨⟨Nat.zero_le _, h.1⟩, h.2⟩

/-- C1 witness: ResourceCounter(2) after get, get, a release and a timed-out
get reaches the state rcW, which satisfies the invariant. -/
theorem resourceCounter_invariant_witness :
    (0 ≤ rcW.m_resources ∧ rcW.m_resources ≤ 2) ∧
    (rcW.m_gate.locked = true ↔ rcW.m_resources = 0) :=
  resourceCounter_invariant 2
    [RCEvent.getSuccess, RCEvent.getSuccess, RCEvent.release,
     RCEvent.getTimeout]
    rcW (by decide) (by decide) (by decide) (by decide)

/-- C8: on a capacity-3 channel of Ints, sending 1, 2, 3 succeeds, a fourth
send with a short timeout on the full channel fails without enqueueing,
three receives then yield 1, 2, 3 in FIFO order, and a further receive on
the now-empty channel with a short timeout fails without producing a
value. -/
theorem boundedChannel_fifo :
    (Queue.send chanW0 1 portMAX_DELAY 10).2 = true ∧
    (Queue.send chanW1 2 portMAX_DELAY 10).2 = true ∧
    (Queue.send chanW2 3 portMAX_DELAY 10).2 = true ∧
    Queue.send chanW3 4 5 10 = (chanW3, false) ∧
    (Queue.receive chanW3 portMAX_DELAY 10).2 = some 1 ∧
    (Queue.receive (Queue.receive chanW3 portMAX_DELAY 10).1
      portMAX_DELAY 10).2 = some 2 ∧
    (Queue.receive (Queue.receive (Queue.receive chanW3 portMAX_DELAY 10).1
      portMAX_DELAY 10).1 portMAX_DELAY 10).2 = some 3 ∧
    Queue.receive (Queue.receive (Queue.receive
        (Queue.receive chanW3 portMAX_DELAY 10).1 portMAX_DELAY 10).1
        portMAX_DELAY 10).1 5 10
      = ((Queue.receive (Queue.receive
          (Queue.receive chanW3 portMAX_DELAY 10).1 portMAX_DELAY 10).1
          portMAX_DELAY 10).1, none) := by
  decide

/-- The wraparound-tolerant uint32 difference recovers the true elapsed
time when the counter has advanced by less than 2^32 ticks, wrapping at
most once. -/
theorem millisDiff_wrap (t e : Nat) (h1 : t < 4294967296)
    (h2 : e < 4294967296) :
    millisDiff t ((t + e) % 4294967296) = e := by
  unfold millisDiff
  omega

/-- C9: a SoftTimeOut reset with duration d at startTime reports elapsed at
the current time startTime + e (as read from a uint32 tick counter that may
have wrapped once) exactly when e >= d, and reports not-elapsed before. -/
theorem softTimeOut_elapsed (duration startTime elapsed : Nat)
    (h1 : startTime < 4294967296) (h2 : elapsed < 4294967296) :
    SoftTimeOut.hasElapsed (SoftTimeOut.reset duration startTime)
      ((startTime + elapsed) % 4294967296) = decide (duration ≤ elapsed) := by
  unfold SoftTimeOut.hasElapsed SoftTimeOut.reset
  rw [show startTime % 4294967296 = startTime from Nat.mod_eq_of_lt h1]
  rw [millisDiff_wrap startTime elapsed h1 h2]

/-- C9 witness: a 200 ms timer started 100 ticks before the uint32 counter
wraps correctly reports elapsed 300 ticks later, across the wrap. -/
theorem softTimeOut_elapsed_witness :
    SoftTimeOut.hasElapsed (SoftTimeOut.reset 200 4294967196)
      ((4294967196 + 300) % 4294967296) = decide ((200 : Nat) ≤ 300) :=
  softTimeOut_elapsed 200 4294967196 300 (by decide) (by decide)

/-- C10: send, signal, receive and peek all pass msTimeOut / portTICK_RATE_MS
ticks to the underlying queue; the truncating division turns every timeout
below one tick period into a non-blocking 0-tick call, and turns the default
portMAX_DELAY into a finite tick count strictly below the indefinite-wait
sentinel (for any tick period of at least 2 ms). -/
theorem queue_timeout_conversion (msTimeOut tickRateMs : Nat)
    (h1 : msTimeOut < tickRateMs) (h2 : 2 ≤ tickRateMs) :
    msToTicks msTimeOut tickRateMs = 0 ∧
    msToTicks portMAX_DELAY tickRateMs < portMAX_DELAY ∧
    (∀ (T : Type) (q : Queue T) (item : T),
      Queue.send q item msTimeOut tickRateMs =
        xQueueSend q item (msToTicks msTimeOut tickRateMs)) ∧
    (∀ (T : Type) (q : Queue T),
      Queue.receive q msTimeOut tickRateMs =
        xQueueReceive q (msToTicks msTimeOut tickRateMs)) ∧
    (∀ (T : Type) (q : Queue T),
      Queue.peek q msTimeOut tickRateMs =
        xQueuePeek q (msToTicks msTimeOut tickRateMs)) ∧
    (∀ (T : Type) [Inhabited T] (q : Queue T),
      Queue.signal q msTimeOut tickRateMs =
        Queue.send q default msTimeOut tickRateMs) := by
  refine ⟨Nat.div_eq_of_lt h1, ?_, ?_, ?_, ?_, ?_⟩
  · exact Nat.div_lt_self (by decide) (by omega)
  · intro T q item
    rfl
  · intro T q
    rfl
  · intro T q
    rfl
  · intro T _ q
    rfl

/-- C10 witness: with a 10 ms tick period, a 5 ms timeout is converted to 0
ticks by all four operations, and the default portMAX_DELAY timeout becomes
a finite tick count. -/
theorem queue_timeout_conversion_witness :
    msToTicks 5 10 = 0 ∧
    msToTicks portMAX_DELAY 10 < portMAX_DELAY ∧
    (∀ (T : Type) (q : Queue T) (item : T),
      Queue.send q item 5 10 = xQueueSend q item (msToTicks 5 10)) ∧
    (∀ (T : Type) (q : Queue T),
      Queue.receive q 5 10 = xQueueReceive q (msToTicks 5 10)) ∧
    (∀ (T : Type) (q : Queue T),
      Queue.peek q 5 10 = xQueuePeek q (msToTicks 5 10)) ∧
    (∀ (T : Type) [Inhabited T] (q : Queue T),
      Queue.signal q 5 10 = Queue.send q default 5 10) :=
  queue_timeout_conversion 5 10 (by decide) (by decide)
